import Mathlib

/-!
Verification of the binary fixed-length record store in `main.py`
(Car Rental Management System).

Modelling conventions:
* Python `bytes` are `List Nat`, each entry assumed < 256 where it matters.
* Python `str` is `List Nat` of Unicode code points.
* Machine integers are `Nat`; `struct.pack` range errors are modelled by
  `Option` results.
* The 32-bit float `daily_rate` is carried as its IEEE-754 binary32 bit
  pattern (a `Nat` < 2^32); `struct.pack('<f', x)`/`unpack` then move the
  four bytes of that pattern unchanged.  Validation comparisons interpret
  the pattern as an exact rational.
* `datetime.datetime.now()` is a parameter `now : Nat` (a Unix timestamp);
  rendered time strings (`strftime`) are string parameters.
-/

namespace CarRental

/-- Little-endian 4-byte encoding of a 32-bit value (`struct.pack('<I', x)`). -/
def le32 (x : Nat) : List Nat :=
  [x % 256, x / 256 % 256, x / 65536 % 256, x / 16777216 % 256]

/-- Little-endian read of a 4-byte slice (`struct.unpack('<I', b)`). -/
def readLE4 (l : List Nat) : Nat :=
  match l with
  | [a, b, c, d] => a + 256 * b + 65536 * c + 16777216 * d
  | _ => 0

/-- Python `bytes.rstrip(b'\x00')`: remove trailing zero bytes. -/
def rstrip0 (l : List Nat) : List Nat :=
  (l.reverse.dropWhile (fun b => b == 0)).reverse

/-- UTF-8 encoding of one code point (assumed to be a Unicode scalar value). -/
def encodeChar (c : Nat) : List Nat :=
  if c < 128 then [c]
  else if c < 2048 then [192 + c / 64, 128 + c % 64]
  else if c < 65536 then [224 + c / 4096, 128 + c / 64 % 64, 128 + c % 64]
  else [240 + c / 262144, 128 + c / 4096 % 64, 128 + c / 64 % 64, 128 + c % 64]

/-- Python `str.encode('utf-8')` over the code points of the string. -/
def encodeUtf8 : List Nat → List Nat
  | [] => []
  | c :: s => encodeChar c ++ encodeUtf8 s

/-- One pass of CPython's UTF-8 decoder (WHATWG/maximal-subpart error
ranges): returns the code points produced under `errors='ignore'` together
with a flag that is `true` iff the whole input was valid UTF-8.  The first
argument is structural-recursion fuel; every step consumes at least one
byte, so any fuel at least the length of the input gives the decoder's
value (the fuel-0 arm is unreachable then). -/
def utf8CoreF : Nat → List Nat → List Nat × Bool
  | _, [] => ([], true)
  | 0, _ => ([], false)
  | fuel + 1, b1 :: rest =>
    if b1 < 128 then
      let p := utf8CoreF fuel rest
      (b1 :: p.1, p.2)
    else if b1 < 194 then
      ((utf8CoreF fuel rest).1, false)
    else if b1 < 224 then
      match rest with
      | [] => ([], false)
      | b2 :: rest2 =>
        if 128 ≤ b2 ∧ b2 ≤ 191 then
          let p := utf8CoreF fuel rest2
          (((b1 - 192) * 64 + (b2 - 128)) :: p.1, p.2)
        else ((utf8CoreF fuel rest).1, false)
    else if b1 < 240 then
      match rest with
      | [] => ([], false)
      | b2 :: rest2 =>
        if (if b1 = 224 then 160 else 128) ≤ b2 ∧ b2 ≤ (if b1 = 237 then 159 else 191) then
          match rest2 with
          | [] => ([], false)
          | b3 :: rest3 =>
            if 128 ≤ b3 ∧ b3 ≤ 191 then
              let p := utf8CoreF fuel rest3
              (((b1 - 224) * 4096 + (b2 - 128) * 64 + (b3 - 128)) :: p.1, p.2)
            else ((utf8CoreF fuel rest2).1, false)
        else ((utf8CoreF fuel rest).1, false)
    else if b1 < 245 then
      match rest with
      | [] => ([], false)
      | b2 :: rest2 =>
        if (if b1 = 240 then 144 else 128) ≤ b2 ∧ b2 ≤ (if b1 = 244 then 143 else 191) then
          match rest2 with
          | [] => ([], false)
          | b3 :: rest3 =>
            if 128 ≤ b3 ∧ b3 ≤ 191 then
              match rest3 with
              | [] => ([], false)
              | b4 :: rest4 =>
                if 128 ≤ b4 ∧ b4 ≤ 191 then
                  let p := utf8CoreF fuel rest4
                  (((b1 - 240) * 262144 + (b2 - 128) * 4096 + (b3 - 128) * 64 + (b4 - 128)) :: p.1,
                    p.2)
                else ((utf8CoreF fuel rest3).1, false)
            else ((utf8CoreF fuel rest2).1, false)
        else ((utf8CoreF fuel rest).1, false)
    else ((utf8CoreF fuel rest).1, false)

/-- The UTF-8 decoder run with enough fuel for its whole input. -/
def utf8Core (l : List Nat) : List Nat × Bool := utf8CoreF l.length l

/-- Optionally prepend a produced code point. -/
def consI (tok : Option Nat) (l : List Nat) : List Nat :=
  match tok with
  | none => l
  | some c => c :: l

/-- One step of the decoder on the first byte: (code point emitted if any,
remaining input, this step was error-free).  `utf8CoreF` is exactly the
iteration of this step (see `utf8CoreF_succ`). -/
def utf8Step (b1 : Nat) (rest : List Nat) : Option Nat × List Nat × Bool :=
  if b1 < 128 then (some b1, rest, true)
  else if b1 < 194 then (none, rest, false)
  else if b1 < 224 then
    match rest with
    | [] => (none, [], false)
    | b2 :: rest2 =>
      if 128 ≤ b2 ∧ b2 ≤ 191 then (some ((b1 - 192) * 64 + (b2 - 128)), rest2, true)
      else (none, rest, false)
  else if b1 < 240 then
    match rest with
    | [] => (none, [], false)
    | b2 :: rest2 =>
      if (if b1 = 224 then 160 else 128) ≤ b2 ∧ b2 ≤ (if b1 = 237 then 159 else 191) then
        match rest2 with
        | [] => (none, [], false)
        | b3 :: rest3 =>
          if 128 ≤ b3 ∧ b3 ≤ 191 then
            (some ((b1 - 224) * 4096 + (b2 - 128) * 64 + (b3 - 128)), rest3, true)
          else (none, rest2, false)
      else (none, rest, false)
  else if b1 < 245 then
    match rest with
    | [] => (none, [], false)
    | b2 :: rest2 =>
      if (if b1 = 240 then 144 else 128) ≤ b2 ∧ b2 ≤ (if b1 = 244 then 143 else 191) then
        match rest2 with
        | [] => (none, [], false)
        | b3 :: rest3 =>
          if 128 ≤ b3 ∧ b3 ≤ 191 then
            match rest3 with
            | [] => (none, [], false)
            | b4 :: rest4 =>
              if 128 ≤ b4 ∧ b4 ≤ 191 then
                (some ((b1 - 240) * 262144 + (b2 - 128) * 4096 + (b3 - 128) * 64 + (b4 - 128)),
                  rest4, true)
              else (none, rest3, false)
          else (none, rest2, false)
      else (none, rest, false)
  else (none, rest, false)

/-- Python `bytes.decode('utf-8', errors='ignore')`. -/
def decodeIgnore (l : List Nat) : List Nat := (utf8Core l).1

/-- Whether a byte string is valid UTF-8 (strict decode succeeds). -/
def validUtf8 (l : List Nat) : Bool := (utf8Core l).2

/-- A code point a Python `str` can hold and `encode('utf-8')` accepts:
below 0x110000 and not a surrogate. -/
def IsScalar (c : Nat) : Prop := c < 1114112 ∧ (c < 55296 ∨ 57344 ≤ c)

instance (c : Nat) : Decidable (IsScalar c) := by unfold IsScalar; infer_instance

/-- All code points of a string are scalar values. -/
def Scalars (s : List Nat) : Prop := ∀ c ∈ s, IsScalar c

instance (s : List Nat) : Decidable (Scalars s) := by unfold Scalars; infer_instance

/-- Head byte of a slice (used for the two `B` fields). -/
def readByte (l : List Nat) : Nat := l.headD 0

/-- A fixed-width text field as `struct.pack` stores it after the source's
`s.encode('utf-8')[:n].ljust(n, b'\x00')`: a hard byte-level cut (which can
split a multi-byte character) padded with NUL bytes to exactly `n`. -/
def encodeField (s : List Nat) (n : Nat) : List Nat :=
  let b := (encodeUtf8 s).take n
  b ++ List.replicate (n - b.length) 0

/-- Decoding of a stored text field: `raw.rstrip(b'\x00').decode('utf-8',
errors='ignore')`. -/
def decodeField (t : List Nat) : List Nat := decodeIgnore (rstrip0 t)

/-- Exact rational value of an IEEE-754 binary32 bit pattern; `none` for
NaN and infinities (exponent 255). -/
def f32ToRat (bits : Nat) : Option ℚ :=
  let sign := bits / 2147483648 % 2
  let e := bits / 8388608 % 256
  let m := bits % 8388608
  if e = 255 then none
  else
    let mag : ℚ :=
      if e = 0 then (m : ℚ) / (2 ^ 149 : ℚ)
      else ((8388608 + m : ℚ) * 2 ^ (e - 1)) / (2 ^ 150 : ℚ)
    some (if sign = 1 then -mag else mag)

/-- The exact value of the Python float literal `99999.99` (nearest
binary64: 6871946986405233 / 2^36). -/
def rateLimit : ℚ := 6871946986405233 / 68719476736

/-- The source's daily-rate validation `0 < daily_rate <= 99999.99` on the
binary32 bit pattern of the rate.  The comparison of the exact value
`(2^23+m) * 2^(e-150)` (normal; `m * 2^(-149)` subnormal) against the
binary64 value of the literal `99999.99` (= 6871946986405233 / 2^36) is
carried out cross-multiplied in exact integer arithmetic, which is the
same comparison Python performs on the floats; NaN, infinities and
negative values (sign bit set) fail the check. -/
def rateOk (bits : Nat) : Bool :=
  let s := bits / 2147483648 % 2
  let e := bits / 8388608 % 256
  let m := bits % 8388608
  if e = 255 then false
  else if s = 1 then false
  else if e = 0 then
    decide (0 < m) && decide (m * 68719476736 ≤ 6871946986405233 * 2 ^ 149)
  else
    decide ((8388608 + m) * 2 ^ (e - 1) * 68719476736 ≤ 6871946986405233 * 2 ^ 150)

/-- In-memory car record (`CarRecord` in the source).  `daily_rate` is
carried as its binary32 bit pattern.  Text fields are strings (lists of
code points). -/
structure CarRecord where
  car_id : Nat
  license_plate : List Nat
  brand : List Nat
  model : List Nat
  year : Nat
  daily_rate : Nat
  odometer : Nat
  status : Nat
  is_rented : Nat
  created_at : Nat
  updated_at : Nat
deriving DecidableEq, Repr

/-- Model of `CarRecord.__init__`: slices text fields to a character count and
replaces zero timestamps by `now` (Python `created_at or int(now())`; the
source calls `datetime.now()` twice back to back, modelled as one `now`). -/
def mkCarRecord (car_id : Nat) (license_plate brand model : List Nat) (year daily_rate odometer status is_rented created_at updated_at now : Nat) : CarRecord :=
  { car_id := car_id
    license_plate := license_plate.take 12
    brand := brand.take 12
    model := model.take 16
    year := year
    daily_rate := daily_rate
    odometer := odometer
    status := status
    is_rented := is_rented
    created_at := if created_at = 0 then now else created_at
    updated_at := if updated_at = 0 then now else updated_at }

/-- Model of `struct.calcsize('<I12s12s16sIfIBBII')`: the actual encoded size of a
car record.  Note this is 66, not the source's `CAR_RECORD_SIZE = 72`. -/
def carStructSize : Nat := 66

/-- The source's (wrong) `CAR_RECORD_SIZE` constant used for chunked
reads. -/
def CAR_RECORD_SIZE : Nat := 72

/-- Model of `struct.calcsize('<IIcI20s')`: actual encoded size of an operation log
record (33, not the source's `OPERATION_RECORD_SIZE = 32`). -/
def opStructSize : Nat := 33

/-- The source's (wrong) `OPERATION_RECORD_SIZE` constant. -/
def OPERATION_RECORD_SIZE : Nat := 32

/-- Model of `CarRecord.pack`: `struct.pack('<I12s12s16sIfIBBII', ...)`.  `none`
models the `struct.error`/`UnicodeEncodeError` exceptions (out-of-range
integers, surrogate code points). -/
def CarRecord.pack (c : CarRecord) : Option (List Nat) :=
  if c.car_id < 4294967296 ∧ c.year < 4294967296 ∧ c.daily_rate < 4294967296 ∧
      c.odometer < 4294967296 ∧ c.status < 256 ∧ c.is_rented < 256 ∧
      c.created_at < 4294967296 ∧ c.updated_at < 4294967296 ∧
      Scalars c.license_plate ∧ Scalars c.brand ∧ Scalars c.model then
    some (le32 c.car_id ++ encodeField c.license_plate 12 ++ encodeField c.brand 12 ++
      encodeField c.model 16 ++ le32 c.year ++ le32 c.daily_rate ++ le32 c.odometer ++
      [c.status] ++ [c.is_rented] ++ le32 c.created_at ++ le32 c.updated_at)
  else none

/-- Model of `CarRecord.unpack`: `struct.unpack` (which demands exactly 66 bytes)
followed by the `cls(...)` call through `__init__`. -/
def CarRecord.unpack (data : List Nat) (now : Nat) : Option CarRecord :=
  if data.length = carStructSize then
    let carId := readLE4 (data.take 4)
    let r1 := data.drop 4
    let plate := decodeField (r1.take 12)
    let r2 := r1.drop 12
    let brand := decodeField (r2.take 12)
    let r3 := r2.drop 12
    let model := decodeField (r3.take 16)
    let r4 := r3.drop 16
    let year := readLE4 (r4.take 4)
    let r5 := r4.drop 4
    let rate := readLE4 (r5.take 4)
    let r6 := r5.drop 4
    let odo := readLE4 (r6.take 4)
    let r7 := r6.drop 4
    let status := readByte (r7.take 1)
    let r8 := r7.drop 1
    let rented := readByte (r8.take 1)
    let r9 := r8.drop 1
    let created := readLE4 (r9.take 4)
    let r10 := r9.drop 4
    let updated := readLE4 (r10.take 4)
    some (mkCarRecord carId plate brand model year rate odo status rented created updated now)
  else none

/-- Model of `_read_all_cars`, reading `CAR_RECORD_SIZE`(=72)-byte chunks and
unpacking each; a chunk shorter than 72 bytes ends the loop; a
`struct.error` from `unpack` propagates (`none`).  Fuel-based recursion
(every step consumes 72 bytes, so fuel = input length suffices and the
fuel-0 arm is unreachable). -/
def readAllCarsF : Nat → List Nat → Nat → Option (List CarRecord)
  | 0, _, _ => some []
  | fuel + 1, content, now =>
    if CAR_RECORD_SIZE ≤ content.length then
      (CarRecord.unpack (content.take CAR_RECORD_SIZE) now).bind fun r =>
        (readAllCarsF fuel (content.drop CAR_RECORD_SIZE) now).map fun rs => r :: rs
    else some []

/-- Model of `_read_all_cars` with adequate fuel. -/
def readAllCars (content : List Nat) (now : Nat) : Option (List CarRecord) :=
  readAllCarsF content.length content now

/-- Model of `_find_car_by_id`: outer `none` is a read exception, inner option is
found / not found. -/
def findCarById (content : List Nat) (cid : Nat) (now : Nat) : Option (Option CarRecord) :=
  (readAllCars content now).map fun cars => cars.find? fun c => c.car_id == cid

/-- Model of `_write_car_record`: append one packed record. -/
def writeCarRecord (content : List Nat) (c : CarRecord) : Option (List Nat) :=
  (CarRecord.pack c).map fun b => content ++ b

/-- The write loop of `_update_car_record` over the decoded records:
returns (bytes written, no exception, some record matched).  On a pack
exception the bytes written so far remain (the file was opened with
`'wb'`), matching the source's partial-write behaviour. -/
def writeRecordsLoop : List CarRecord → Nat → CarRecord → Nat → List Nat × Bool × Bool
  | [], _, _, _ => ([], true, false)
  | r :: rs, cid, car, now =>
    let step : Option (List Nat) × Bool :=
      if r.car_id == cid then
        (CarRecord.pack { car with car_id := cid, updated_at := now }, true)
      else (CarRecord.pack r, false)
    match step.1 with
    | none => ([], false, step.2)
    | some b =>
      let rest := writeRecordsLoop rs cid car now
      (b ++ rest.1, rest.2.1, step.2 || rest.2.2)

/-- Model of `_update_car_record`: re-read every record, truncate the file and
rewrite all of them, substituting the updated car (with `updated_at`
refreshed) at its position.  Result: (new file bytes, `some updated` /
`none` for an exception). -/
def updateCarRecordFn (cid : Nat) (car : CarRecord) (content : List Nat) (now : Nat) : List Nat × Option Bool :=
  match readAllCars content now with
  | none => (content, none)
  | some records =>
    let w := writeRecordsLoop records cid car now
    (w.1, if w.2.1 then some w.2.2 else none)

/-- Outcome of `update_car` as observable at the prompt. -/
inductive UpdateResult
  | readError | notFound | deletedRefused | writeError | notUpdated | ok
deriving DecidableEq, Repr

/-- The patch collected by `update_car`'s prompts: empty string / `none`
means the input was left blank (skip-to-keep). -/
structure CarPatch where
  license_plate : List Nat
  brand : List Nat
  model : List Nat
  year : Option Int
  daily_rate : Option Nat
  odometer : Option Int
  is_rented : List Nat
deriving DecidableEq, Repr

/-- An all-blank patch (every prompt answered with Enter). -/
def blankPatch : CarPatch :=
  ⟨[], [], [], none, none, none, []⟩

/-- String literal as a list of code points. -/
def lit (s : String) : List Nat := s.toList.map Char.toNat

/-- The field-by-field conditional assignments of `update_car` (out-of-range
values are silently skipped, keeping the previous value). -/
def applyPatch (car : CarRecord) (p : CarPatch) (nowYear : Nat) : CarRecord :=
  let c1 := if p.license_plate ≠ [] ∧ p.license_plate.length ≤ 12 then
      { car with license_plate := p.license_plate } else car
  let c2 := if p.brand ≠ [] ∧ p.brand.length ≤ 12 then { c1 with brand := p.brand } else c1
  let c3 := if p.model ≠ [] ∧ p.model.length ≤ 16 then { c2 with model := p.model } else c2
  let c4 := match p.year with
    | none => c3
    | some y => if 1900 ≤ y ∧ y ≤ (nowYear : Int) + 2 then { c3 with year := y.toNat } else c3
  let c5 := match p.daily_rate with
    | none => c4
    | some bits => if rateOk bits then { c4 with daily_rate := bits } else c4
  let c6 := match p.odometer with
    | none => c5
    | some o => if 0 ≤ o ∧ o ≤ 9999999 then { c5 with odometer := o.toNat } else c5
  if p.is_rented = lit (r"y") then { c6 with is_rented := 1 }
  else if p.is_rented = lit (r"n") then { c6 with is_rented := 0 }
  else c6

/-- Model of `update_car`: find, refuse deleted, apply the patch, rewrite.  All
exceptions are caught by the surrounding `try`. -/
def updateCar (content : List Nat) (cid : Nat) (p : CarPatch) (now nowYear : Nat) : List Nat × UpdateResult :=
  match findCarById content cid now with
  | none => (content, .readError)
  | some none => (content, .notFound)
  | some (some car) =>
    if car.status = 0 then (content, .deletedRefused)
    else
      let car2 := applyPatch car p nowYear
      match updateCarRecordFn cid car2 content now with
      | (bytes, none) => (bytes, .writeError)
      | (bytes, some true) => (bytes, .ok)
      | (bytes, some false) => (bytes, .notUpdated)

/-- Outcome of `delete_car`. -/
inductive DeleteResult
  | readError | notFound | alreadyDeleted | cancelled | writeError | notUpdated | ok
deriving DecidableEq, Repr

/-- Model of `delete_car`: find, refuse already-deleted, confirm, set `status := 0`
(STATUS_DELETED) and rewrite. -/
def deleteCar (content : List Nat) (cid : Nat) (confirm : List Nat) (now : Nat) : List Nat × DeleteResult :=
  match findCarById content cid now with
  | none => (content, .readError)
  | some none => (content, .notFound)
  | some (some car) =>
    if car.status = 0 then (content, .alreadyDeleted)
    else if confirm ≠ lit (r"y") then (content, .cancelled)
    else
      match updateCarRecordFn cid { car with status := 0 } content now with
      | (bytes, none) => (bytes, .writeError)
      | (bytes, some true) => (bytes, .ok)
      | (bytes, some false) => (bytes, .notUpdated)

/-- Model of `_get_next_car_id`: read the 4-byte counter (1000 when the file is
empty, `struct.error` when 1-3 bytes), increment, persist.  `none` models
the exceptions (including `struct.pack` overflow, in which case the source
additionally leaves sequence.dat truncated; no claim depends on that
state). -/
def getNextCarId (seqF : List Nat) : Option (Nat × List Nat) :=
  match (if seqF.isEmpty then some 1000
         else if 4 ≤ seqF.length then some (readLE4 (seqF.take 4)) else none) with
  | none => none
  | some cur =>
    if cur + 1 < 4294967296 then some (cur + 1, le32 (cur + 1)) else none

/-- The inputs collected by `add_car`'s prompts.  `none` for the numeric
fields models an unparseable `int(...)`/`float(...)` (a `ValueError`,
which aborts the whole add exactly like a failed validation).  The rate is
the binary32 bit pattern of the parsed float. -/
structure AddInput where
  license_plate : List Nat
  brand : List Nat
  model : List Nat
  year : Option Int
  daily_rate : Option Nat
  odometer : Option Int
  is_rented : List Nat
deriving DecidableEq, Repr

/-- Model of `add_car`: validations in source order, duplicate-license-plate check
against the records read back, id allocation, append.  Returns (cars file,
sequence file, the created record if any).  The operation log append is
modelled separately by `logOperation`. -/
def addCar (content seqF : List Nat) (inp : AddInput) (now nowYear : Nat) : List Nat × List Nat × Option CarRecord :=
  if inp.license_plate = [] ∨ 12 < inp.license_plate.length then (content, seqF, none)
  else
    match readAllCars content now with
    | none => (content, seqF, none)
    | some cars =>
      if cars.any (fun c => c.license_plate == inp.license_plate && c.status == 1) then
        (content, seqF, none)
      else if inp.brand = [] ∨ 12 < inp.brand.length then (content, seqF, none)
      else if inp.model = [] ∨ 16 < inp.model.length then (content, seqF, none)
      else
        match inp.year with
        | none => (content, seqF, none)
        | some y =>
          if y < 1900 ∨ (nowYear : Int) + 2 < y then (content, seqF, none)
          else
            match inp.daily_rate with
            | none => (content, seqF, none)
            | some bits =>
              if ¬ rateOk bits then (content, seqF, none)
              else
                match inp.odometer with
                | none => (content, seqF, none)
                | some o =>
                  if o < 0 ∨ 9999999 < o then (content, seqF, none)
                  else
                    let rented := if inp.is_rented = lit (r"y") then 1 else 0
                    match getNextCarId seqF with
                    | none => (content, seqF, none)
                    | some (cid, seq2) =>
                      let car := mkCarRecord cid inp.license_plate inp.brand inp.model
                        y.toNat bits o.toNat 1 rented 0 0 now
                      match writeCarRecord content car with
                      | none => (content, seq2, none)
                      | some content2 => (content2, seq2, some car)

/-- In-memory operation log record; `operation_type` is the single ASCII
byte ('A', 'U', 'D', 'V'). -/
structure OperationRecord where
  operation_id : Nat
  car_id : Nat
  operation_type : Nat
  timestamp : Nat
  details : List Nat
deriving DecidableEq, Repr

/-- Model of `OperationRecord.__init__` (`timestamp or now`, `details[:20]`). -/
def mkOperationRecord (operation_id car_id operation_type timestamp : Nat) (details : List Nat) (now : Nat) : OperationRecord :=
  { operation_id := operation_id
    car_id := car_id
    operation_type := operation_type
    timestamp := if timestamp = 0 then now else timestamp
    details := details.take 20 }

/-- Model of `OperationRecord.pack`: `struct.pack('<IIcI20s', ...)` (33 bytes). -/
def OperationRecord.pack (o : OperationRecord) : Option (List Nat) :=
  if o.operation_id < 4294967296 ∧ o.car_id < 4294967296 ∧ o.operation_type < 128 ∧
      o.timestamp < 4294967296 ∧ Scalars o.details then
    some (le32 o.operation_id ++ le32 o.car_id ++ [o.operation_type] ++ le32 o.timestamp ++
      encodeField o.details 20)
  else none

/-- Model of `OperationRecord.unpack` (demands exactly 33 bytes; the type byte must
decode as ASCII). -/
def OperationRecord.unpack (data : List Nat) (now : Nat) : Option OperationRecord :=
  if data.length = opStructSize then
    let opId := readLE4 (data.take 4)
    let r1 := data.drop 4
    let cid := readLE4 (r1.take 4)
    let r2 := r1.drop 4
    let ty := readByte (r2.take 1)
    let r3 := r2.drop 1
    let ts := readLE4 (r3.take 4)
    let r4 := r3.drop 4
    let det := decodeField r4
    if ty < 128 then some (mkOperationRecord opId cid ty ts det now) else none
  else none

/-- Model of `_log_operation`: derive the next operation id from the file size in
`OPERATION_RECORD_SIZE`(=32) units and append one packed record (a pack
exception appends nothing). -/
def logOperation (opsF : List Nat) (carId ty : Nat) (details : List Nat) (now : Nat) : List Nat :=
  let opId := opsF.length / OPERATION_RECORD_SIZE + 1
  match OperationRecord.pack (mkOperationRecord opId carId ty 0 details now) with
  | none => opsF
  | some b => opsF ++ b

/-- The chunked read loop of `_read_operations` (32-byte chunks, short
chunk ends the loop, `struct.error` propagates). -/
def readOpsChunksF : Nat → List Nat → Nat → Option (List OperationRecord)
  | 0, _, _ => some []
  | fuel + 1, content, now =>
    if OPERATION_RECORD_SIZE ≤ content.length then
      (OperationRecord.unpack (content.take OPERATION_RECORD_SIZE) now).bind fun r =>
        (readOpsChunksF fuel (content.drop OPERATION_RECORD_SIZE) now).map fun rs => r :: rs
    else some []

/-- Model of `_read_operations(limit)`: seek to the last `limit` supposed records
and read chunks, most recent first. -/
def readOperations (content : List Nat) (limit : Nat) (now : Nat) : Option (List OperationRecord) :=
  let total := content.length / OPERATION_RECORD_SIZE
  let start := total - limit
  let tail := content.drop (start * OPERATION_RECORD_SIZE)
  (readOpsChunksF tail.length tail now).map List.reverse

/-- Decimal rendering of a natural number. -/
def natLit (n : Nat) : List Nat := (Nat.toDigits 10 n).map Char.toNat

/-- Decimal rendering of an integer. -/
def intLit (i : Int) : List Nat :=
  if i < 0 then 45 :: natLit i.natAbs else natLit i.toNat

/-- Round to nearest integer, ties to even (the rounding of Python's
float formatting, applied here to the exact rational value). -/
def roundHalfEven (q : ℚ) : Int :=
  let f := ⌊q⌋
  let r := q - f
  if r < 1 / 2 then f else if 1 / 2 < r then f + 1 else if f % 2 = 0 then f else f + 1

/-- Python `format(x, '.2f')` on an exact rational value. -/
def fmt2 (q : ℚ) : List Nat :=
  let sign : List Nat := if q < 0 then [45] else []
  let n := (roundHalfEven ((if q < 0 then -q else q) * 100)).toNat
  sign ++ natLit (n / 100) ++ [46] ++ [48 + n / 10 % 10, 48 + n % 10]

/-- Exact values of the active cars' rates (`[car.daily_rate for car in
active_cars]`); binary64 reading of a binary32 value is exact.  NaN cannot
pass the add/update validation, so the 0 default is never exercised. -/
def ratesOf (active : List CarRecord) : List ℚ :=
  active.map fun c => (f32ToRat c.daily_rate).getD 0

/-- Python `min` over a nonempty list (first element seeds the fold). -/
def listMin : List ℚ → ℚ
  | [] => 0
  | x :: xs => xs.foldl min x

/-- Python `max` over a nonempty list. -/
def listMax : List ℚ → ℚ
  | [] => 0
  | x :: xs => xs.foldl max x

/-- Python `sum` (seeded with 0).  The source accumulates in binary64;
modelled exactly in ℚ, which agrees whenever no accumulation rounding
occurs (in particular for a single active car). -/
def listSum (l : List ℚ) : ℚ := l.foldl (· + ·) 0

/-- Python string `<` (code-point lexicographic), as `≤`. -/
def lexLe : List Nat → List Nat → Bool
  | [], _ => true
  | _ :: _, [] => false
  | x :: xs, y :: ys => if x < y then true else if y < x then false else lexLe xs ys

/-- Insertion into a lexicographically sorted list. -/
def insLex (x : List Nat) : List (List Nat) → List (List Nat)
  | [] => [x]
  | y :: ys => if lexLe x y then x :: y :: ys else y :: insLex x ys

/-- Model of `sorted` by string key. -/
def sortLex (l : List (List Nat)) : List (List Nat) := l.foldr insLex []

/-- Keys of the brand dictionary in insertion order. -/
def uniqKeys : List (List Nat) → List (List Nat)
  | [] => []
  | b :: r => b :: uniqKeys (r.filter fun x => x ≠ b)
termination_by l => l.length
decreasing_by
  simp only [List.length_cons]
  exact Nat.lt_succ_of_le (List.length_filter_le _ _)

/-- Model of `{x:<8}`: left-justify to 8 with spaces. -/
def padTo8 (l : List Nat) : List Nat := l ++ List.replicate (8 - l.length) 32

/-- Model of `op_type_map.get(t, t)`. -/
def opTypeName (t : Nat) : List Nat :=
  if t = 65 then lit (r"ADD")
  else if t = 85 then lit (r"UPDATE")
  else if t = 68 then lit (r"DELETE")
  else if t = 86 then lit (r"VIEW")
  else [t]

/-- One row of the RECENT OPERATIONS section.  `fmtTs` is the
timezone-dependent `datetime.fromtimestamp(ts).strftime(...)` rendering,
a parameter of the model. -/
def opLine (fmtTs : Nat → List Nat) (o : OperationRecord) : List Nat :=
  fmtTs o.timestamp ++ lit (r" | ") ++ padTo8 (opTypeName o.operation_type) ++
    lit (r" | Car ID: ") ++ natLit o.car_id ++ lit (r" | ") ++ o.details

/-- The `Cars by Brand` rows: brand histogram over active cars, sorted. -/
def brandLines (active : List CarRecord) : List (List Nat) :=
  (sortLex (uniqKeys (active.map fun c => c.brand))).map fun b =>
    lit (r"- ") ++ b ++ lit (r": ") ++
      natLit ((active.filter fun c => c.brand == b).length)

/-- A line of 60 equals signs. -/
def eq60 : List Nat := List.replicate 60 61

/-- The report text of `generate_report`, as its list of lines (the file
content is each line followed by a newline; see `reportText`).  `nowStr`
is the rendered generation time (spliced in twice). -/
def reportLines (cars : List CarRecord) (ops : List OperationRecord) (nowStr : List Nat) (fmtTs : Nat → List Nat) : List (List Nat) :=
  let active := cars.filter fun c => c.status == 1
  let deleted := cars.filter fun c => c.status == 0
  let rented := active.filter fun c => !(c.is_rented == 0)
  let avail := active.filter fun c => c.is_rented == 0
  [lit (r"Car Rental System - Summary Report (Sample)"),
    lit (r"Generated at: ") ++ nowStr,
    lit (r"App Version: 1.0"),
    lit (r"Endianness: Little-Endian"),
    lit (r"Encoding: UTF-8 (Fixed-length)"),
    [],
    eq60,
    lit (r"SUMMARY STATISTICS"),
    eq60,
    lit (r"Total Cars (รวมรถทั้งหมด): ") ++ natLit cars.length,
    lit (r"Active Cars (รถที่ใช้งาน): ") ++ natLit active.length,
    lit (r"Deleted Cars (รถที่ลบแล้ว): ") ++ natLit deleted.length,
    lit (r"Available Cars (รถว่าง): ") ++ natLit avail.length,
    lit (r"Rented Cars (รถที่เช่าอยู่): ") ++ natLit rented.length,
    [],
    lit (r"Rate Statistics (THB/day, Active only):")] ++
  (if active.isEmpty then [] else
    let rates := ratesOf active
    [lit (r"- Min: ") ++ fmt2 (listMin rates),
      lit (r"- Max: ") ++ fmt2 (listMax rates),
      lit (r"- Avg: ") ++ fmt2 (listSum rates / rates.length),
      [],
      lit (r"Cars by Brand (Active only):")] ++
    brandLines active) ++
  [[], eq60, lit (r"RECENT OPERATIONS"), eq60] ++
  ops.map (opLine fmtTs) ++
  [[], eq60, lit (r"System Status: Running"),
    lit (r"Available Slots: ") ++ intLit (1000 - (cars.length : Int)),
    lit (r"Last Updated: ") ++ nowStr]

/-- Joining the report lines into the written file content. -/
def reportText (lines : List (List Nat)) : List Nat :=
  (lines.map fun l => l ++ [10]).flatten

/-- Model of `generate_report`: read cars and the last 10 operations (either read
may raise), build the text, write it, then log a 'V' operation.  Returns
(report lines, new operations file).  Failure (`none`) writes no report. -/
def generateReport (carsF opsF : List Nat) (nowStr : List Nat) (fmtTs : Nat → List Nat) (now : Nat) : Option (List (List Nat) × List Nat) :=
  match readAllCars carsF now with
  | none => none
  | some cars =>
    match readOperations opsF 10 now with
    | none => none
    | some ops =>
      some (reportLines cars ops nowStr fmtTs,
        logOperation opsF 0 86 (lit (r"Generated report")) now)

/-- Bool test for a line starting with a given byte sequence. -/
def leadsWith : List Nat → List Nat → Bool
  | [], _ => true
  | _ :: _, [] => false
  | p :: ps, x :: xs => p == x && leadsWith ps xs

/-- The two timestamp lines of the report. -/
def isTimestampLine (l : List Nat) : Bool :=
  leadsWith (lit (r"Generated at: ")) l || leadsWith (lit (r"Last Updated: ")) l

/-- Report lines with the timestamp lines excluded. -/
def scrubReport (lines : List (List Nat)) : List (List Nat) :=
  lines.filter fun l => !isTimestampLine l

/-- A concrete well-formed car record (rate bits are those of 1100.0f). -/
def demoCar : CarRecord :=
  mkCarRecord 1001 (lit (r"ABC-123")) (lit (r"Toyota")) (lit (r"Camry")) 2025 1149861888 42850
    1 0 0 0 1700000000

/-- A second concrete record with a different id. -/
def demoCar2 : CarRecord :=
  mkCarRecord 1002 (lit (r"XYZ-999")) (lit (r"Honda")) (lit (r"Accord")) 2005 1149861888 156000
    1 1 0 0 1700000000

/-- The packed bytes of `demoCar` (66 bytes). -/
def demoFile : List Nat := (CarRecord.pack demoCar).getD []

/-- The packed bytes of `demoCar2`. -/
def demoFile2 : List Nat := (CarRecord.pack demoCar2).getD []

/-- A concrete valid set of `add_car` inputs answering n to the rented
prompt. -/
def demoInput : AddInput :=
  { license_plate := lit (r"NEW-111")
    brand := lit (r"Mazda")
    model := lit (r"CX-5")
    year := some 2020
    daily_rate := some 1149861888
    odometer := some 1000
    is_rented := lit (r"n") }

/-- The same inputs answering y to the rented prompt. -/
def demoInputY : AddInput := { demoInput with is_rented := lit (r"y") }

/-- A record whose license plate is the one-character string NUL; it fits
the 12-byte budget but `rstrip(b'\x00')` erases it on decode. -/
def nulCar : CarRecord :=
  ⟨1001, [0], lit (r"Toyota"), lit (r"Camry"), 2024, 1149861888, 100, 1, 0, 7, 7⟩

/-- A record with `created_at = 0`: within the 32-bit range, but
`__init__` replaces it by `now` on decode. -/
def zeroTsCar : CarRecord :=
  ⟨1002, [97], lit (r"Honda"), lit (r"Civic"), 2020, 1149861888, 5, 1, 0, 0, 7⟩

/-- A record whose 12-character license plate UTF-8-encodes to 13 bytes:
the hard cut at 12 bytes splits the final two-byte character, storing a
dangling 0xC3 byte. -/
def splitCar : CarRecord :=
  ⟨1003, lit (r"aaaaaaaaaaa") ++ [233], lit (r"Toyota"), lit (r"Camry"), 2024, 1149861888, 100,
    1, 0, 7, 7⟩

/-- The record `add_car` builds from `demoInputY` on an empty store with
sequence counter 1000 at time 50. -/
def demoAddedCar : CarRecord :=
  mkCarRecord 1001 (lit (r"NEW-111")) (lit (r"Mazda")) (lit (r"CX-5")) 2020 1149861888 1000
    1 1 0 0 50

/-- The non-text fields of a record, as one tuple. -/
def nonText (e : CarRecord) : Nat × Nat × Nat × Nat × Nat × Nat × Nat × Nat :=
  (e.car_id, e.year, e.daily_rate, e.odometer, e.status, e.is_rented, e.created_at, e.updated_at)

/-- All numeric fields of a record are within the widths `struct.pack`
accepts (`I`/`B` fields). -/
def NumericInRange (e : CarRecord) : Prop :=
  e.car_id < 4294967296 ∧ e.year < 4294967296 ∧ e.daily_rate < 4294967296 ∧
    e.odometer < 4294967296 ∧ e.status < 256 ∧ e.is_rented < 256 ∧
    e.created_at < 4294967296 ∧ e.updated_at < 4294967296

instance (e : CarRecord) : Decidable (NumericInRange e) := by
  unfold NumericInRange; infer_instance

/-- A text field that round-trips: scalar code points, UTF-8 encoding
within the byte budget, and no trailing NUL character (which the
`rstrip(b'\x00')` of decode would strip). -/
def TextOk (s : List Nat) (n : Nat) : Prop :=
  Scalars s ∧ (encodeUtf8 s).length ≤ n ∧ s.getLast? ≠ some 0

instance (s : List Nat) (n : Nat) : Decidable (TextOk s n) := by
  unfold TextOk; infer_instance

/-- A text field whose hard byte cut at the field width does not split a
multi-byte character: the stored bytes are valid UTF-8. -/
def FieldAligned (s : List Nat) (n : Nat) : Prop :=
  Scalars s ∧ validUtf8 ((encodeUtf8 s).take n) = true

instance (s : List Nat) (n : Nat) : Decidable (FieldAligned s n) := by
  unfold FieldAligned; infer_instance

theorem le32_length (x : Nat) : (le32 x).length = 4 := rfl

theorem readLE4_le32 (x : Nat) (h : x < 4294967296) : readLE4 (le32 x) = x := by
  simp only [le32, readLE4]
  omega

theorem encodeField_length (s : List Nat) (n : Nat) : (encodeField s n).length = n := by
  simp only [encodeField, List.length_append, List.length_replicate, List.length_take]
  omega

theorem utf8CoreF_nil (f : Nat) : utf8CoreF f [] = ([], true) := by
  cases f <;> rfl

set_option maxHeartbeats 1000000 in
theorem utf8CoreF_succ (g b1 : Nat) (rest : List Nat) :
    utf8CoreF (g + 1) (b1 :: rest) =
      (consI (utf8Step b1 rest).1 (utf8CoreF g (utf8Step b1 rest).2.1).1,
        (utf8Step b1 rest).2.2 && (utf8CoreF g (utf8Step b1 rest).2.1).2) := by
  simp only [utf8CoreF]
  unfold utf8Step
  repeat' split
  all_goals (try simp [consI, utf8CoreF_nil])

set_option maxHeartbeats 1000000 in
theorem utf8Step_rem_le (b1 : Nat) (rest : List Nat) :
    (utf8Step b1 rest).2.1.length ≤ rest.length := by
  unfold utf8Step
  repeat' split
  all_goals (try simp)
  all_goals omega

theorem utf8CoreF_congr (f1 : Nat) : ∀ l : List Nat, ∀ f2 : Nat,
    l.length ≤ f1 → l.length ≤ f2 → utf8CoreF f1 l = utf8CoreF f2 l := by
  induction f1 with
  | zero =>
    intro l f2 h1 _
    have : l = [] := List.eq_nil_of_length_eq_zero (Nat.le_zero.mp h1)
    subst this
    simp [utf8CoreF_nil]
  | succ g ih =>
    intro l f2 h1 h2
    match l with
    | [] => simp [utf8CoreF_nil]
    | b1 :: rest =>
      match f2 with
      | 0 => simp at h2
      | h + 1 =>
        rw [utf8CoreF_succ, utf8CoreF_succ]
        have hr := utf8Step_rem_le b1 rest
        have hlen : rest.length + 1 = (b1 :: rest).length := by simp
        rw [ih (utf8Step b1 rest).2.1 h (by omega) (by omega)]

theorem utf8Core_cons (b1 : Nat) (rest : List Nat) :
    utf8Core (b1 :: rest) =
      (consI (utf8Step b1 rest).1 (utf8Core (utf8Step b1 rest).2.1).1,
        (utf8Step b1 rest).2.2 && (utf8Core (utf8Step b1 rest).2.1).2) := by
  unfold utf8Core
  rw [show (b1 :: rest).length = rest.length + 1 by simp, utf8CoreF_succ,
    utf8CoreF_congr rest.length (utf8Step b1 rest).2.1 (utf8Step b1 rest).2.1.length
      (utf8Step_rem_le b1 rest) le_rfl]

theorem isScalar_intro (a : Nat) (h1 : a < 1114112) (h2 : a < 55296 ∨ 57344 ≤ a) :
    IsScalar a := ⟨h1, h2⟩

theorem utf8Core_nil : utf8Core [] = ([], true) := rfl

set_option maxHeartbeats 2000000 in
theorem utf8Step_sound (b1 : Nat) (rest : List Nat) (h : (utf8Step b1 rest).2.2 = true) :
    ∃ c, (utf8Step b1 rest).1 = some c ∧ IsScalar c ∧
      encodeChar c ++ (utf8Step b1 rest).2.1 = b1 :: rest := by
  rcases hs : utf8Step b1 rest with ⟨tok, rem, ok⟩
  rw [hs] at h
  simp only at h
  subst h
  unfold utf8Step at hs
  repeat' split at hs
  all_goals simp only [Prod.mk.injEq, Bool.false_eq_true] at hs
  all_goals (try exact hs.2.2.elim)
  all_goals obtain ⟨ht, hr, -⟩ := hs
  all_goals subst ht
  all_goals subst hr
  all_goals (try (exfalso; omega))
  all_goals refine ⟨_, rfl, isScalar_intro _ (by omega) (by omega), ?_⟩
  all_goals unfold encodeChar
  all_goals repeat' split
  all_goals simp only [List.cons_append, List.nil_append, List.cons.injEq, and_true,
    eq_self_iff_true]
  all_goals (first | (exfalso; omega) | omega | rfl)

set_option maxHeartbeats 2000000 in
set_option maxRecDepth 8000 in
theorem utf8Core_enc_cons (c : Nat) (t : List Nat) (hc : IsScalar c) :
    utf8Core (encodeChar c ++ t) = (c :: (utf8Core t).1, (utf8Core t).2) := by
  obtain ⟨hlt, hsur⟩ := hc
  have key : ∃ b1 r1, encodeChar c ++ t = b1 :: r1 ∧ utf8Step b1 r1 = (some c, t, true) := by
    unfold encodeChar
    repeat' split
    · refine ⟨c, t, rfl, ?_⟩
      unfold utf8Step
      rw [if_pos (by omega)]
    · refine ⟨192 + c / 64, (128 + c % 64) :: t, rfl, ?_⟩
      unfold utf8Step
      dsimp only
      repeat' split
      all_goals (first | (exfalso; omega) |
        (simp only [Prod.mk.injEq, Option.some.injEq, eq_self_iff_true, and_true, true_and,
          and_self]; first | trivial | omega))
    · refine ⟨224 + c / 4096, (128 + c / 64 % 64) :: ((128 + c % 64) :: t), rfl, ?_⟩
      unfold utf8Step
      dsimp only
      repeat' split
      all_goals (first | (exfalso; omega) |
        (simp only [Prod.mk.injEq, Option.some.injEq, eq_self_iff_true, and_true, true_and,
          and_self]; first | trivial | omega))
    · refine ⟨240 + c / 262144,
        (128 + c / 4096 % 64) :: ((128 + c / 64 % 64) :: ((128 + c % 64) :: t)), rfl, ?_⟩
      unfold utf8Step
      dsimp only
      repeat' split
      all_goals (first | (exfalso; omega) |
        (simp only [Prod.mk.injEq, Option.some.injEq, eq_self_iff_true, and_true, true_and,
          and_self]; first | trivial | omega))
  obtain ⟨b1, r1, he, hstep⟩ := key
  rw [he, utf8Core_cons, hstep]
  simp [consI]

theorem utf8Core_encode (s : List Nat) (hs : Scalars s) :
    utf8Core (encodeUtf8 s) = (s, true) := by
  induction s with
  | nil => rfl
  | cons c cs ih =>
    have hc : IsScalar c := hs c (by simp)
    have hcs : Scalars cs := fun x hx => hs x (by simp [hx])
    rw [show encodeUtf8 (c :: cs) = encodeChar c ++ encodeUtf8 cs from rfl,
      utf8Core_enc_cons c _ hc, ih hcs]

theorem decodeIgnore_encode (s : List Nat) (hs : Scalars s) :
    decodeIgnore (encodeUtf8 s) = s := by
  unfold decodeIgnore
  rw [utf8Core_encode s hs]

theorem validUtf8_encode (s : List Nat) (hs : Scalars s) :
    validUtf8 (encodeUtf8 s) = true := by
  unfold validUtf8
  rw [utf8Core_encode s hs]

theorem utf8Core_valid (fuel : Nat) : ∀ l : List Nat, l.length ≤ fuel →
    (utf8CoreF fuel l).2 = true →
    Scalars (utf8CoreF fuel l).1 ∧ encodeUtf8 (utf8CoreF fuel l).1 = l ∧
      (utf8CoreF fuel l).1.length ≤ l.length := by
  induction fuel with
  | zero =>
    intro l h1 _
    have : l = [] := List.eq_nil_of_length_eq_zero (Nat.le_zero.mp h1)
    subst this
    refine ⟨fun x hx => absurd hx (by simp [utf8CoreF_nil]), ?_, ?_⟩ <;>
      simp [utf8CoreF_nil, encodeUtf8]
  | succ g ih =>
    intro l h1 h2
    match l with
    | [] =>
      refine ⟨fun x hx => absurd hx (by simp [utf8CoreF_nil]), ?_, ?_⟩ <;>
        simp [utf8CoreF_nil, encodeUtf8]
    | b1 :: rest =>
      rw [utf8CoreF_succ] at h2 ⊢
      rw [Bool.and_eq_true] at h2
      obtain ⟨c, htok, hscal, henc⟩ := utf8Step_sound b1 rest h2.1
      have hrem := utf8Step_rem_le b1 rest
      have hlen : (b1 :: rest).length = rest.length + 1 := by simp
      obtain ⟨ihS, ihE, ihL⟩ :=
        ih (utf8Step b1 rest).2.1 (by omega) h2.2
      rw [htok]
      simp only [consI]
      refine ⟨?_, ?_, ?_⟩
      · intro x hx
        rcases List.mem_cons.mp hx with rfl | hx
        · exact hscal
        · exact ihS x hx
      · rw [show encodeUtf8 (c :: (utf8CoreF g (utf8Step b1 rest).2.1).1) =
          encodeChar c ++ encodeUtf8 (utf8CoreF g (utf8Step b1 rest).2.1).1 from rfl, ihE, henc]
      · simp only [List.length_cons]
        omega

theorem validUtf8_decode (l : List Nat) (h : validUtf8 l = true) :
    Scalars (decodeIgnore l) ∧ encodeUtf8 (decodeIgnore l) = l ∧
      (decodeIgnore l).length ≤ l.length :=
  utf8Core_valid l.length l le_rfl h

theorem encodeUtf8_append (s t : List Nat) :
    encodeUtf8 (s ++ t) = encodeUtf8 s ++ encodeUtf8 t := by
  induction s with
  | nil => rfl
  | cons c cs ih =>
    simp only [List.cons_append, encodeUtf8, List.append_eq, ih, List.append_assoc]

theorem encodeChar_length_pos (c : Nat) : 0 < (encodeChar c).length := by
  unfold encodeChar
  repeat' split
  all_goals simp

theorem length_le_encodeUtf8 (s : List Nat) : s.length ≤ (encodeUtf8 s).length := by
  induction s with
  | nil => simp [encodeUtf8]
  | cons c cs ih =>
    have := encodeChar_length_pos c
    simp only [encodeUtf8, List.length_append, List.length_cons]
    omega

theorem rstrip0_append_zero (l : List Nat) : rstrip0 (l ++ [0]) = rstrip0 l := by
  simp [rstrip0, List.dropWhile]

theorem rstrip0_append_replicate (l : List Nat) (k : Nat) :
    rstrip0 (l ++ List.replicate k 0) = rstrip0 l := by
  induction k generalizing l with
  | zero => simp
  | succ m ih =>
    rw [show List.replicate (m + 1) 0 = (0 : Nat) :: List.replicate m 0 from rfl,
      show l ++ ((0 : Nat) :: List.replicate m 0) = (l ++ [0]) ++ List.replicate m 0 by simp,
      ih (l ++ [0]), rstrip0_append_zero]

theorem rstrip0_concat_nonzero (l : List Nat) (b : Nat) (h : b ≠ 0) :
    rstrip0 (l ++ [b]) = l ++ [b] := by
  have hb : (b == 0) = false := by simp [h]
  simp [rstrip0, List.dropWhile, hb]

theorem rstrip0_eq_self (l : List Nat) (h : l.getLast? ≠ some 0) : rstrip0 l = l := by
  induction l using List.reverseRecOn with
  | nil => rfl
  | append_singleton xs x _ =>
    have hx : x ≠ 0 := by
      intro hx
      exact h (by simp [hx, List.getLast?_append])
    exact rstrip0_concat_nonzero xs x hx

theorem rstrip0_length_le (l : List Nat) : (rstrip0 l).length ≤ l.length := by
  have := (List.dropWhile_sublist (fun b : Nat => b == 0) (l := l.reverse)).length_le
  simpa [rstrip0] using this

theorem rstrip0_decomp (l : List Nat) :
    l = rstrip0 l ++ List.replicate (l.length - (rstrip0 l).length) 0 := by
  induction l using List.reverseRecOn with
  | nil => rfl
  | append_singleton xs x ih =>
    by_cases hx : x = 0
    · subst hx
      rw [rstrip0_append_zero]
      have hle := rstrip0_length_le xs
      have hlen : (xs ++ [(0 : Nat)]).length - (rstrip0 xs).length
          = (xs.length - (rstrip0 xs).length) + 1 := by
        simp only [List.length_append, List.length_cons, List.length_nil]
        omega
      rw [hlen, show List.replicate ((xs.length - (rstrip0 xs).length) + 1) (0 : Nat)
          = List.replicate (xs.length - (rstrip0 xs).length) 0 ++ [0] from
          (List.replicate_succ' _ _).symm ▸ rfl]
      rw [← List.append_assoc, ← ih]
    · rw [rstrip0_concat_nonzero xs x hx]
      simp

theorem scalars_sub (s t : List Nat) (hsub : ∀ x ∈ t, x ∈ s) (hs : Scalars s) : Scalars t :=
  fun x hx => hs x (hsub x hx)

theorem rstrip0_subset (l : List Nat) : ∀ x ∈ rstrip0 l, x ∈ l := by
  intro x hx
  have hsub := (List.dropWhile_sublist (fun b : Nat => b == 0) (l := l.reverse)).subset
  simp only [rstrip0, List.mem_reverse] at hx
  have := hsub hx
  simpa using this

theorem encodeChar_concat (c : Nat) (h : c ≠ 0) :
    ∃ ys b, encodeChar c = ys ++ [b] ∧ b ≠ 0 := by
  unfold encodeChar
  repeat' split
  · exact ⟨[], c, rfl, h⟩
  · exact ⟨[192 + c / 64], 128 + c % 64, rfl, by omega⟩
  · exact ⟨[224 + c / 4096, 128 + c / 64 % 64], 128 + c % 64, rfl, by omega⟩
  · exact ⟨[240 + c / 262144, 128 + c / 4096 % 64, 128 + c / 64 % 64], 128 + c % 64, rfl, by omega⟩

theorem rstrip0_encodeUtf8 (s : List Nat) :
    rstrip0 (encodeUtf8 s) = encodeUtf8 (rstrip0 s) := by
  induction s using List.reverseRecOn with
  | nil => rfl
  | append_singleton xs x ih =>
    rw [encodeUtf8_append]
    by_cases hx : x = 0
    · subst hx
      rw [show encodeUtf8 [0] = [0] from rfl, rstrip0_append_zero, ih, rstrip0_append_zero]
    · obtain ⟨ys, b, he, hb⟩ := encodeChar_concat x hx
      rw [show encodeUtf8 [x] = encodeChar x from by simp [encodeUtf8], he,
        ← List.append_assoc, rstrip0_concat_nonzero _ _ hb,
        rstrip0_concat_nonzero xs x hx, encodeUtf8_append,
        show encodeUtf8 [x] = encodeChar x from by simp [encodeUtf8], he, List.append_assoc]

theorem decodeField_encodeField (s : List Nat) (n : Nat) (hs : Scalars s)
    (hlen : (encodeUtf8 s).length ≤ n) (hlast : s.getLast? ≠ some 0) :
    decodeField (encodeField s n) = s := by
  unfold decodeField encodeField
  rw [List.take_of_length_le hlen, rstrip0_append_replicate,
    rstrip0_encodeUtf8, rstrip0_eq_self s hlast, decodeIgnore_encode s hs]

theorem encodeField_split (s : List Nat) (n : Nat) :
    encodeField s n = (encodeUtf8 s).take n ++
      List.replicate (n - ((encodeUtf8 s).take n).length) 0 := rfl

theorem encodeField_decodeField (t : List Nat) (n : Nat) (hv : validUtf8 t = true)
    (hlen : t.length ≤ n) :
    encodeField ((decodeField (t ++ List.replicate (n - t.length) 0)).take n) n =
      t ++ List.replicate (n - t.length) 0 := by
  obtain ⟨hsc, henc, hle⟩ := validUtf8_decode t hv
  have hdf : decodeField (t ++ List.replicate (n - t.length) 0) = rstrip0 (decodeIgnore t) := by
    unfold decodeField
    rw [rstrip0_append_replicate]
    conv_lhs => rw [← henc, rstrip0_encodeUtf8]
    rw [decodeIgnore_encode _ (scalars_sub _ _ (rstrip0_subset _) hsc)]
  rw [hdf]
  have hlen2 : (rstrip0 (decodeIgnore t)).length ≤ n :=
    le_trans (le_trans (rstrip0_length_le _) hle) hlen
  rw [List.take_of_length_le hlen2]
  unfold encodeField
  have henc2 : encodeUtf8 (rstrip0 (decodeIgnore t)) = rstrip0 t := by
    rw [← rstrip0_encodeUtf8, henc]
  rw [henc2]
  have hrt_le : (rstrip0 t).length ≤ n := le_trans (rstrip0_length_le t) hlen
  rw [List.take_of_length_le hrt_le]
  dsimp only
  rw [show n - (rstrip0 t).length = (t.length - (rstrip0 t).length) + (n - t.length) from by
      have := rstrip0_length_le t; omega,
    List.replicate_add, ← List.append_assoc, ← rstrip0_decomp t]

theorem decodeField_padded (t : List Nat) (n : Nat) (hv : validUtf8 t = true) :
    decodeField (t ++ List.replicate (n - t.length) 0) = rstrip0 (decodeIgnore t) := by
  obtain ⟨hsc, henc, -⟩ := validUtf8_decode t hv
  unfold decodeField
  rw [rstrip0_append_replicate]
  conv_lhs => rw [← henc, rstrip0_encodeUtf8]
  rw [decodeIgnore_encode _ (scalars_sub _ _ (rstrip0_subset _) hsc)]

theorem unpack_append (cid yr ra od st ir ca ua : Nat) (pl br mo : List Nat)
    (hpl : pl.length = 12) (hbr : br.length = 12) (hmo : mo.length = 16) (now : Nat) :
    CarRecord.unpack (le32 cid ++ pl ++ br ++ mo ++ le32 yr ++ le32 ra ++ le32 od ++
        [st] ++ [ir] ++ le32 ca ++ le32 ua) now =
      some (mkCarRecord (readLE4 (le32 cid)) (decodeField pl) (decodeField br) (decodeField mo)
        (readLE4 (le32 yr)) (readLE4 (le32 ra)) (readLE4 (le32 od)) st ir (readLE4 (le32 ca))
        (readLE4 (le32 ua)) now) := by
  have hlen : (le32 cid ++ pl ++ br ++ mo ++ le32 yr ++ le32 ra ++ le32 od ++
      [st] ++ [ir] ++ le32 ca ++ le32 ua).length = 66 := by
    simp [le32_length, hpl, hbr, hmo]
  unfold CarRecord.unpack
  rw [if_pos (by rw [hlen]; rfl)]
  dsimp only
  simp only [List.append_assoc]
  rw [List.take_left' (le32_length cid), List.drop_left' (le32_length cid),
    List.take_left' hpl, List.drop_left' hpl,
    List.take_left' hbr, List.drop_left' hbr,
    List.take_left' hmo, List.drop_left' hmo,
    List.take_left' (le32_length yr), List.drop_left' (le32_length yr),
    List.take_left' (le32_length ra), List.drop_left' (le32_length ra),
    List.take_left' (le32_length od), List.drop_left' (le32_length od),
    List.take_left' (show ([st] : List Nat).length = 1 from rfl),
    List.drop_left' (show ([st] : List Nat).length = 1 from rfl),
    List.take_left' (show ([ir] : List Nat).length = 1 from rfl),
    List.drop_left' (show ([ir] : List Nat).length = 1 from rfl),
    List.take_left' (le32_length ca), List.drop_left' (le32_length ca)]
  rfl

theorem pack_length (e : CarRecord) (b : List Nat) (hb : CarRecord.pack e = some b) :
    b.length = 66 := by
  unfold CarRecord.pack at hb
  split at hb
  · cases hb
    simp [le32_length, encodeField_length]
  · cases hb

theorem unpack_pack (e : CarRecord) (now : Nat) (hnum : NumericInRange e)
    (ht1 : TextOk e.license_plate 12) (ht2 : TextOk e.brand 12) (ht3 : TextOk e.model 16)
    (hc : e.created_at ≠ 0) (hu : e.updated_at ≠ 0) :
    (CarRecord.pack e).bind (fun b => CarRecord.unpack b now) = some e := by
  obtain ⟨cid, pl, br, mo, yr, ra, od, st, ir, ca, ua⟩ := e
  obtain ⟨h1, h2, h3, h4, h5, h6, h7, h8⟩ := hnum
  obtain ⟨hs1, hl1, hz1⟩ := ht1
  obtain ⟨hs2, hl2, hz2⟩ := ht2
  obtain ⟨hs3, hl3, hz3⟩ := ht3
  simp only at h1 h2 h3 h4 h5 h6 h7 h8 hs1 hl1 hz1 hs2 hl2 hz2 hs3 hl3 hz3 hc hu
  unfold CarRecord.pack
  rw [if_pos ⟨h1, h2, h3, h4, h5, h6, h7, h8, hs1, hs2, hs3⟩]
  dsimp only
  rw [Option.some_bind]
  rw [unpack_append cid yr ra od st ir ca ua _ _ _
    (encodeField_length _ _) (encodeField_length _ _) (encodeField_length _ _) now]
  unfold mkCarRecord
  simp only [Option.some.injEq, CarRecord.mk.injEq]
  have hp1 : pl.length ≤ 12 := le_trans (length_le_encodeUtf8 pl) hl1
  have hp2 : br.length ≤ 12 := le_trans (length_le_encodeUtf8 br) hl2
  have hp3 : mo.length ≤ 16 := le_trans (length_le_encodeUtf8 mo) hl3
  refine ⟨readLE4_le32 _ h1, ?_, ?_, ?_, readLE4_le32 _ h2, readLE4_le32 _ h3,
    readLE4_le32 _ h4, trivial, trivial, ?_, ?_⟩
  · rw [decodeField_encodeField pl 12 hs1 hl1 hz1, List.take_of_length_le hp1]
  · rw [decodeField_encodeField br 12 hs2 hl2 hz2, List.take_of_length_le hp2]
  · rw [decodeField_encodeField mo 16 hs3 hl3 hz3, List.take_of_length_le hp3]
  · rw [readLE4_le32 _ h7, if_neg hc]
  · rw [readLE4_le32 _ h8, if_neg hu]

theorem unpack_pack_nontext (e : CarRecord) (now : Nat) (hnum : NumericInRange e)
    (hs1 : Scalars e.license_plate) (hs2 : Scalars e.brand) (hs3 : Scalars e.model)
    (hc : e.created_at ≠ 0) (hu : e.updated_at ≠ 0) :
    (CarRecord.pack e).map List.length = some 66 ∧
    ((CarRecord.pack e).bind (fun b => CarRecord.unpack b now)).map nonText =
      some (nonText e) := by
  obtain ⟨cid, pl, br, mo, yr, ra, od, st, ir, ca, ua⟩ := e
  obtain ⟨h1, h2, h3, h4, h5, h6, h7, h8⟩ := hnum
  simp only at h1 h2 h3 h4 h5 h6 h7 h8 hs1 hs2 hs3 hc hu
  unfold CarRecord.pack
  rw [if_pos ⟨h1, h2, h3, h4, h5, h6, h7, h8, hs1, hs2, hs3⟩]
  dsimp only
  rw [Option.map_some', Option.some_bind]
  constructor
  · simp [le32_length, encodeField_length]
  · rw [unpack_append cid yr ra od st ir ca ua _ _ _
      (encodeField_length _ _) (encodeField_length _ _) (encodeField_length _ _) now]
    rw [Option.map_some']
    unfold mkCarRecord nonText
    simp only [Option.some.injEq, Prod.mk.injEq]
    refine ⟨readLE4_le32 _ h1, readLE4_le32 _ h2, readLE4_le32 _ h3, readLE4_le32 _ h4,
      trivial, trivial, ?_, ?_⟩
    · rw [readLE4_le32 _ h7, if_neg hc]
    · rw [readLE4_le32 _ h8, if_neg hu]

theorem pack_unpack (e : CarRecord) (b : List Nat) (now : Nat)
    (hb : CarRecord.pack e = some b) (hc : e.created_at ≠ 0) (hu : e.updated_at ≠ 0)
    (ha1 : validUtf8 ((encodeUtf8 e.license_plate).take 12) = true)
    (ha2 : validUtf8 ((encodeUtf8 e.brand).take 12) = true)
    (ha3 : validUtf8 ((encodeUtf8 e.model).take 16) = true) :
    (CarRecord.unpack b now).bind CarRecord.pack = some b := by
  obtain ⟨cid, pl, br, mo, yr, ra, od, st, ir, ca, ua⟩ := e
  simp only at hc hu ha1 ha2 ha3
  unfold CarRecord.pack at hb
  split at hb
  case isFalse => cases hb
  case isTrue hcond =>
  obtain ⟨h1, h2, h3, h4, h5, h6, h7, h8, hs1, hs2, hs3⟩ := hcond
  simp only [Option.some.injEq] at hb
  subst hb
  rw [unpack_append cid yr ra od st ir ca ua _ _ _
    (encodeField_length _ _) (encodeField_length _ _) (encodeField_length _ _) now]
  rw [Option.some_bind]
  have hfield : ∀ (s : List Nat) (n : Nat), Scalars s →
      validUtf8 ((encodeUtf8 s).take n) = true →
      encodeField ((decodeField (encodeField s n)).take n) n = encodeField s n ∧
        Scalars ((decodeField (encodeField s n)).take n) := by
    intro s n hsc hv
    have htlen : ((encodeUtf8 s).take n).length ≤ n := by
      simp [List.length_take]
    have hef : encodeField s n = (encodeUtf8 s).take n ++
        List.replicate (n - ((encodeUtf8 s).take n).length) 0 := rfl
    constructor
    · rw [hef]
      exact encodeField_decodeField _ n hv htlen
    · rw [hef, decodeField_padded _ n hv]
      obtain ⟨hsc2, -, -⟩ := validUtf8_decode _ hv
      exact scalars_sub _ _
        (fun x hx => rstrip0_subset _ x (List.take_subset _ _ hx))
        hsc2
  obtain ⟨hf1, hsc1⟩ := hfield pl 12 hs1 ha1
  obtain ⟨hf2, hsc2⟩ := hfield br 12 hs2 ha2
  obtain ⟨hf3, hsc3⟩ := hfield mo 16 hs3 ha3
  unfold mkCarRecord CarRecord.pack
  dsimp only
  rw [readLE4_le32 _ h1, readLE4_le32 _ h2, readLE4_le32 _ h3, readLE4_le32 _ h4,
    readLE4_le32 _ h7, readLE4_le32 _ h8, if_neg hc, if_neg hu]
  rw [if_pos ⟨h1, h2, h3, h4, h5, h6, h7, h8, hsc1, hsc2, hsc3⟩]
  rw [hf1, hf2, hf3]

theorem readAllCars_short (content : List Nat) (now : Nat) (h : content.length < 72) :
    readAllCars content now = some [] := by
  unfold readAllCars
  cases hc : content.length with
  | zero => rfl
  | succ n =>
    show readAllCarsF (n + 1) content now = some []
    unfold readAllCarsF
    rw [if_neg (by unfold CAR_RECORD_SIZE; omega)]

theorem readAllCars_long (content : List Nat) (now : Nat) (h : 72 ≤ content.length) :
    readAllCars content now = none := by
  unfold readAllCars
  cases hc : content.length with
  | zero => omega
  | succ n =>
    show readAllCarsF (n + 1) content now = none
    unfold readAllCarsF
    rw [if_pos (by unfold CAR_RECORD_SIZE; omega)]
    have hu : CarRecord.unpack (content.take CAR_RECORD_SIZE) now = none := by
      unfold CarRecord.unpack
      rw [if_neg]
      unfold CAR_RECORD_SIZE carStructSize
      simp only [List.length_take]
      omega
    rw [hu]
    rfl

theorem readAllCars_some (content : List Nat) (now : Nat) (l : List CarRecord)
    (h : readAllCars content now = some l) : l = [] ∧ content.length < 72 := by
  by_cases hlen : 72 ≤ content.length
  · rw [readAllCars_long _ _ hlen] at h
    cases h
  · rw [readAllCars_short _ _ (by omega)] at h
    cases h
    exact ⟨rfl, by omega⟩

theorem findCarById_cases (content : List Nat) (cid now : Nat) :
    findCarById content cid now = none ∨ findCarById content cid now = some none := by
  unfold findCarById
  cases hr : readAllCars content now with
  | none => exact Or.inl rfl
  | some l =>
    obtain ⟨rfl, -⟩ := readAllCars_some _ _ _ hr
    exact Or.inr rfl

theorem updateCar_inert (content : List Nat) (cid : Nat) (p : CarPatch) (now nowYear : Nat) :
    updateCar content cid p now nowYear = (content, UpdateResult.readError) ∨
      updateCar content cid p now nowYear = (content, UpdateResult.notFound) := by
  unfold updateCar
  rcases findCarById_cases content cid now with h | h <;> rw [h]
  · exact Or.inl rfl
  · exact Or.inr rfl

theorem deleteCar_inert (content : List Nat) (cid : Nat) (confirm : List Nat) (now : Nat) :
    deleteCar content cid confirm now = (content, DeleteResult.readError) ∨
      deleteCar content cid confirm now = (content, DeleteResult.notFound) := by
  unfold deleteCar
  rcases findCarById_cases content cid now with h | h <;> rw [h]
  · exact Or.inl rfl
  · exact Or.inr rfl

theorem addCar_cases (content seqF : List Nat) (inp : AddInput) (now nowYear : Nat) :
    ((addCar content seqF inp now nowYear).2.2 = none ∧
      (addCar content seqF inp now nowYear).1 = content) ∨
    (∃ c, (addCar content seqF inp now nowYear).2.2 = some c ∧
      (addCar content seqF inp now nowYear).1 = content ++ (CarRecord.pack c).getD [] ∧
      (CarRecord.pack c).isSome = true ∧ c.created_at = now ∧ c.updated_at = now ∧
      c.status = 1 ∧
      c.is_rented = (if inp.is_rented = lit (r"y") then 1 else 0) ∧
      (addCar content seqF inp now nowYear).1.length = content.length + 66) := by
  unfold addCar
  repeat' split
  all_goals (try (left; exact ⟨rfl, rfl⟩))
  all_goals dsimp only
  all_goals repeat' split
  all_goals (try (left; exact ⟨rfl, rfl⟩))
  all_goals right
  all_goals rename_i content2 heqw
  all_goals (unfold writeCarRecord at heqw; rw [Option.map_eq_some'] at heqw)
  all_goals obtain ⟨b, hp, hb⟩ := heqw
  all_goals subst hb
  all_goals have hblen := pack_length _ _ hp
  all_goals refine ⟨_, rfl, by simp [hp], by simp [hp], by simp [mkCarRecord],
    by simp [mkCarRecord], by simp [mkCarRecord], ?_, by simp [hp, hblen]⟩
  all_goals simp only [mkCarRecord]

theorem addCar_some (content seqF : List Nat) (inp : AddInput) (now nowYear : Nat)
    (c : CarRecord) (h : (addCar content seqF inp now nowYear).2.2 = some c) :
    (addCar content seqF inp now nowYear).1 = content ++ (CarRecord.pack c).getD [] ∧
      (CarRecord.pack c).isSome = true ∧ c.created_at = now ∧ c.updated_at = now ∧
      c.status = 1 ∧ c.is_rented = (if inp.is_rented = lit (r"y") then 1 else 0) ∧
      (addCar content seqF inp now nowYear).1.length = content.length + 66 := by
  rcases addCar_cases content seqF inp now nowYear with ⟨hn, -⟩ | ⟨c2, hs, rest⟩
  · rw [h] at hn; cases hn
  · rw [h] at hs
    cases hs
    exact rest

theorem addCar_none (content seqF : List Nat) (inp : AddInput) (now nowYear : Nat)
    (h : (addCar content seqF inp now nowYear).2.2 = none) :
    (addCar content seqF inp now nowYear).1 = content := by
  rcases addCar_cases content seqF inp now nowYear with ⟨-, he⟩ | ⟨c2, hs, -⟩
  · exact he
  · rw [h] at hs; cases hs

theorem addCar_mono (content seqF : List Nat) (inp : AddInput) (now nowYear : Nat) :
    content.length ≤ (addCar content seqF inp now nowYear).1.length := by
  rcases addCar_cases content seqF inp now nowYear with ⟨-, he⟩ | ⟨c2, -, -, -, -, -, -, -, hlen⟩
  · rw [he]
  · omega

theorem readOpsChunks_short (content : List Nat) (now : Nat) (h : content.length < 32) :
    readOpsChunksF content.length content now = some [] := by
  cases hc : content.length with
  | zero => rfl
  | succ n =>
    unfold readOpsChunksF
    rw [if_neg (by unfold OPERATION_RECORD_SIZE; omega)]

theorem readOpsChunks_long (content : List Nat) (now : Nat) (h : 32 ≤ content.length) :
    readOpsChunksF content.length content now = none := by
  cases hc : content.length with
  | zero => omega
  | succ n =>
    unfold readOpsChunksF
    rw [if_pos (by unfold OPERATION_RECORD_SIZE; omega)]
    have hu : OperationRecord.unpack (content.take OPERATION_RECORD_SIZE) now = none := by
      unfold OperationRecord.unpack
      rw [if_neg]
      unfold OPERATION_RECORD_SIZE opStructSize
      simp only [List.length_take]
      omega
    rw [hu]
    rfl

theorem readOperations_short (content : List Nat) (limit now : Nat)
    (h : content.length < 32) : readOperations content limit now = some [] := by
  unfold readOperations
  dsimp only
  rw [show content.length / OPERATION_RECORD_SIZE - limit = 0 from by
      unfold OPERATION_RECORD_SIZE; omega]
  simp only [Nat.zero_mul, List.drop_zero]
  rw [readOpsChunks_short content now h]
  rfl

theorem readOperations_long (content : List Nat) (limit now : Nat) (hlim : 1 ≤ limit)
    (h : 32 ≤ content.length) : readOperations content limit now = none := by
  unfold readOperations
  dsimp only
  have htail : 32 ≤ (content.drop ((content.length / OPERATION_RECORD_SIZE - limit) *
      OPERATION_RECORD_SIZE)).length := by
    unfold OPERATION_RECORD_SIZE
    simp only [List.length_drop]
    omega
  rw [readOpsChunks_long _ now htail]
  rfl

theorem readOperations_some (content : List Nat) (limit now : Nat) (l : List OperationRecord)
    (hlim : 1 ≤ limit) (h : readOperations content limit now = some l) : l = [] := by
  by_cases hlen : 32 ≤ content.length
  · rw [readOperations_long _ _ _ hlim hlen] at h
    cases h
  · rw [readOperations_short _ _ _ (by omega)] at h
    cases h
    rfl

theorem generateReport_shape (carsF opsF : List Nat) (nowStr : List Nat)
    (fmtTs : Nat → List Nat) (now : Nat) (r : List (List Nat)) (o2 : List Nat)
    (h : generateReport carsF opsF nowStr fmtTs now = some (r, o2)) :
    r = reportLines [] [] nowStr fmtTs := by
  unfold generateReport at h
  cases hr : readAllCars carsF now with
  | none => rw [hr] at h; cases h
  | some cars =>
    rw [hr] at h
    obtain ⟨rfl, -⟩ := readAllCars_some _ _ _ hr
    cases ho : readOperations opsF 10 now with
    | none => rw [ho] at h; cases h
    | some ops =>
      rw [ho] at h
      have := readOperations_some _ _ _ _ (by omega) ho
      subst this
      simp only [Option.some.injEq, Prod.mk.injEq] at h
      exact h.1.symm

theorem leadsWith_refl_append (p s : List Nat) : leadsWith p (p ++ s) = true := by
  induction p with
  | nil => rfl
  | cons a ps ih => simp [leadsWith, ih]

theorem isTimestampLine_gen (s : List Nat) :
    isTimestampLine (lit (r"Generated at: ") ++ s) = true := by
  unfold isTimestampLine
  rw [leadsWith_refl_append]
  simp

theorem isTimestampLine_last (s : List Nat) :
    isTimestampLine (lit (r"Last Updated: ") ++ s) = true := by
  unfold isTimestampLine
  rw [leadsWith_refl_append]
  simp

theorem reportLines_empty_split (s : List Nat) (f : Nat → List Nat) :
    reportLines [] [] s f =
      [lit (r"Car Rental System - Summary Report (Sample)")] ++
      ((lit (r"Generated at: ") ++ s) ::
        ([lit (r"App Version: 1.0"),
          lit (r"Endianness: Little-Endian"),
          lit (r"Encoding: UTF-8 (Fixed-length)"),
          [],
          eq60,
          lit (r"SUMMARY STATISTICS"),
          eq60,
          lit (r"Total Cars (รวมรถทั้งหมด): ") ++ natLit 0,
          lit (r"Active Cars (รถที่ใช้งาน): ") ++ natLit 0,
          lit (r"Deleted Cars (รถที่ลบแล้ว): ") ++ natLit 0,
          lit (r"Available Cars (รถว่าง): ") ++ natLit 0,
          lit (r"Rented Cars (รถที่เช่าอยู่): ") ++ natLit 0,
          [],
          lit (r"Rate Statistics (THB/day, Active only):"),
          [],
          eq60,
          lit (r"RECENT OPERATIONS"),
          eq60,
          [],
          eq60,
          lit (r"System Status: Running"),
          lit (r"Available Slots: ") ++ intLit (1000 - (0 : Int))] ++
          [lit (r"Last Updated: ") ++ s])) := rfl

theorem scrub_reportLines_const (s1 s2 : List Nat) (f1 f2 : Nat → List Nat) :
    scrubReport (reportLines [] [] s1 f1) = scrubReport (reportLines [] [] s2 f2) := by
  rw [reportLines_empty_split s1 f1, reportLines_empty_split s2 f2]
  unfold scrubReport
  simp only [List.filter_append, List.filter_cons, isTimestampLine_gen, isTimestampLine_last,
    Bool.not_true, Bool.false_eq_true, if_false]

/-- Claim C1 (counterexample): the round trip fails as stated on two
records whose fields are all within the declared ranges and whose text
fits the byte budgets: a license plate that is the one-character NUL
string is erased by `rstrip(b'\x00')`, and a record with `created_at = 0`
(within 32-bit unsigned) gets `created_at` replaced by the decode-time
clock. -/
theorem claim_C1_counterexample :
    (CarRecord.pack nulCar).bind (fun b => CarRecord.unpack b 77) ≠ some nulCar ∧
    (CarRecord.pack zeroTsCar).bind (fun b => CarRecord.unpack b 1760000000) ≠ some zeroTsCar ∧
    NumericInRange nulCar ∧ NumericInRange zeroTsCar ∧
    (encodeUtf8 nulCar.license_plate).length ≤ 12 ∧
    (encodeUtf8 nulCar.brand).length ≤ 12 ∧ (encodeUtf8 nulCar.model).length ≤ 16 ∧
    (encodeUtf8 zeroTsCar.license_plate).length ≤ 12 ∧
    (encodeUtf8 zeroTsCar.brand).length ≤ 12 ∧ (encodeUtf8 zeroTsCar.model).length ≤ 16 := by
  decide

/-- Claim C1 (amended): for every car record whose numeric fields are in
range, whose text fields UTF-8-encode within their byte budgets with no
trailing NUL character, and whose timestamps are nonzero,
`CarRecord.unpack(e.pack())` returns `e` field for field, at any decode
time. -/
theorem claim_C1_roundtrip (e : CarRecord) (now : Nat) (hnum : NumericInRange e)
    (ht1 : TextOk e.license_plate 12) (ht2 : TextOk e.brand 12) (ht3 : TextOk e.model 16)
    (hc : e.created_at ≠ 0) (hu : e.updated_at ≠ 0) :
    (CarRecord.pack e).bind (fun b => CarRecord.unpack b now) = some e :=
  unpack_pack e now hnum ht1 ht2 ht3 hc hu

/-- Concrete instance of the C1 round trip. -/
theorem claim_C1_roundtrip_witness :
    (CarRecord.pack demoCar).bind (fun b => CarRecord.unpack b 5) = some demoCar :=
  claim_C1_roundtrip demoCar 5 (by decide) (by decide) (by decide) (by decide) (by decide)
    (by decide)

/-- Claim C2 (counterexample): a 12-character license plate whose UTF-8
encoding is 13 bytes is hard-cut at byte 12 — the stored plate bytes are
not valid UTF-8 (a dangling 0xC3 lead byte) — and the whole encoded block
is 66 bytes, not the claimed 72. -/
theorem claim_C2_counterexample :
    (CarRecord.pack splitCar).map List.length = some 66 ∧
    validUtf8 ((((CarRecord.pack splitCar).getD []).drop 4).take 12) = false ∧
    splitCar.license_plate.length ≤ 12 := by
  decide

/-- Claim C2 (amended): for every record with in-range numeric fields,
scalar text and nonzero timestamps — with no bound at all on the text
lengths — the encoded block is exactly 66 bytes and every non-text field
decodes back to its original value (text truncation never corrupts
neighbouring fields). -/
theorem claim_C2_frame (e : CarRecord) (now : Nat) (hnum : NumericInRange e)
    (hs1 : Scalars e.license_plate) (hs2 : Scalars e.brand) (hs3 : Scalars e.model)
    (hc : e.created_at ≠ 0) (hu : e.updated_at ≠ 0) :
    (CarRecord.pack e).map List.length = some 66 ∧
    ((CarRecord.pack e).bind (fun b => CarRecord.unpack b now)).map nonText =
      some (nonText e) :=
  unpack_pack_nontext e now hnum hs1 hs2 hs3 hc hu

/-- Concrete instance of the C2 frame property, on the record with the
over-budget license plate. -/
theorem claim_C2_frame_witness :
    (CarRecord.pack splitCar).map List.length = some 66 ∧
    ((CarRecord.pack splitCar).bind (fun b => CarRecord.unpack b 9)).map nonText =
      some (nonText splitCar) :=
  claim_C2_frame splitCar 9 (by decide) (by decide) (by decide) (by decide) (by decide)
    (by decide)

set_option maxRecDepth 40000 in
/-- Claim C3 (code bug): `_read_all_cars` reads 72-byte chunks but the
actual record format is 66 bytes, so `struct.unpack` raises on any full
chunk: a two-record file (132 bytes) yields an exception (`none`) instead
of the claimed `floor(132/72) = 1` record, and a one-record file (66
bytes) is discarded as a short trailing chunk, yielding no records at
all. -/
theorem claim_C3_behavior :
    readAllCars (demoFile ++ demoFile2) 1 = none ∧
    readAllCars demoFile 1 = some [] ∧
    CarRecord.unpack (List.replicate 72 0) 1 = none ∧
    demoFile.length = 66 ∧ CAR_RECORD_SIZE = 72 := by
  decide

set_option maxRecDepth 40000 in
/-- Claim C4 (code bug): `update_car` can never locate a record (reads
return `[]` for a one-record file and raise for two or more), so a blank
update leaves the cars file byte-identical — `updated_at` never
increases.  Shown in general (the file is never modified) and on a
concrete store holding exactly the active car 1001 being updated. -/
theorem claim_C4_behavior :
    (∀ (content : List Nat) (cid : Nat) (p : CarPatch) (now nowYear : Nat),
      (updateCar content cid p now nowYear).1 = content) ∧
    updateCar demoFile 1001 blankPatch 1700000005 2025 = (demoFile, UpdateResult.notFound) ∧
    demoFile = (CarRecord.pack demoCar).getD [] ∧ demoCar.car_id = 1001 ∧
    demoCar.status = 1 := by
  refine ⟨?_, by decide, by decide, by decide, by decide⟩
  intro content cid p now nowYear
  rcases updateCar_inert content cid p now nowYear with h | h <;> rw [h]

set_option maxRecDepth 40000 in
/-- Claim C5 (code bug): the in-place rewrite of `_update_car_record` is
unreachable — `update_car` never succeeds and never touches the file; on
a two-record file (132 bytes) updating an id that is present aborts with
the read exception, leaving the file unchanged. -/
theorem claim_C5_behavior :
    (∀ (content : List Nat) (cid : Nat) (p : CarPatch) (now nowYear : Nat),
      (updateCar content cid p now nowYear).2 ≠ UpdateResult.ok ∧
      (updateCar content cid p now nowYear).1 = content) ∧
    updateCar (demoFile ++ demoFile2) 1001 blankPatch 1700000005 2025 =
      (demoFile ++ demoFile2, UpdateResult.readError) ∧
    (demoFile ++ demoFile2).length = 132 := by
  refine ⟨?_, by decide, by decide⟩
  intro content cid p now nowYear
  rcases updateCar_inert content cid p now nowYear with h | h <;> rw [h] <;>
    exact ⟨by simp, rfl⟩

set_option maxRecDepth 40000 in
/-- Claim C6 (counterexample): `add_car` never checks `car_id`
uniqueness: on a store holding the packed record with id 1001 (66 bytes,
invisible to the 72-byte-chunk read) and sequence counter 1000, a valid
add succeeds and appends a second record that again has id 1001 — the
count grows and no DuplicateKey failure occurs. -/
theorem claim_C6_counterexample :
    (addCar demoFile (le32 1000) demoInput 1700000100 2025).2.2.map (fun c => c.car_id) =
      some 1001 ∧
    demoCar.car_id = 1001 ∧ demoFile = (CarRecord.pack demoCar).getD [] ∧
    (addCar demoFile (le32 1000) demoInput 1700000100 2025).1.length = 132 ∧
    demoFile.length = 66 := by
  decide

/-- Claim C6 (amended): `add_car` either fails (for any reason) leaving
the cars file unchanged, or succeeds and appends exactly one 66-byte
record whose `created_at` and `updated_at` both equal `now`, whose status
is Active (1), and whose `is_rented` comes from the y/n prompt; no car_id
uniqueness check exists. -/
theorem claim_C6_add (content seqF : List Nat) (inp : AddInput) (now nowYear : Nat) :
    ((addCar content seqF inp now nowYear).2.2 = none ∧
      (addCar content seqF inp now nowYear).1 = content) ∨
    (∃ c, (addCar content seqF inp now nowYear).2.2 = some c ∧
      (addCar content seqF inp now nowYear).1 = content ++ (CarRecord.pack c).getD [] ∧
      (CarRecord.pack c).isSome = true ∧ c.created_at = now ∧ c.updated_at = now ∧
      c.status = 1 ∧
      c.is_rented = (if inp.is_rented = lit (r"y") then 1 else 0) ∧
      (addCar content seqF inp now nowYear).1.length = content.length + 66) :=
  addCar_cases content seqF inp now nowYear

set_option maxRecDepth 40000 in
/-- Claim C7 (code bug): `delete_car` never finds a record, so no record
is ever marked Deleted and the file is untouched; shown concretely for
the active car 1001 stored alone in the file.  The record count indeed
never decreases under add, update or delete. -/
theorem claim_C7_behavior :
    (∀ (content : List Nat) (cid : Nat) (confirm : List Nat) (now : Nat),
      deleteCar content cid confirm now = (content, DeleteResult.readError) ∨
      deleteCar content cid confirm now = (content, DeleteResult.notFound)) ∧
    deleteCar demoFile 1001 (lit (r"y")) 1700000007 = (demoFile, DeleteResult.notFound) ∧
    demoCar.status = 1 ∧
    (∀ (content seqF : List Nat) (inp : AddInput) (now nowYear : Nat),
      content.length ≤ (addCar content seqF inp now nowYear).1.length) ∧
    (∀ (content : List Nat) (cid : Nat) (p : CarPatch) (now nowYear : Nat),
      (updateCar content cid p now nowYear).1.length = content.length) := by
  refine ⟨deleteCar_inert, by decide, by decide, addCar_mono, ?_⟩
  intro content cid p now nowYear
  rcases updateCar_inert content cid p now nowYear with h | h <;> rw [h]

/-- Claim C8 (counterexample): two successive report generations from a
fresh store (empty cars and operations files) do not produce two
byte-identical reports: the first succeeds (and appends a 33-byte
'Generated report' log record), after which the second fails outright —
`_read_operations` hits the 32-vs-33-byte record-size mismatch — and
produces no report at all. -/
theorem claim_C8_counterexample :
    (generateReport [] [] (lit (r"2025-10-12 09:00:00")) (fun _ => []) 100).map Prod.snd =
      some (logOperation [] 0 86 (lit (r"Generated report")) 100) ∧
    (generateReport [] [] (lit (r"2025-10-12 09:00:00")) (fun _ => []) 100).isSome = true ∧
    generateReport [] (logOperation [] 0 86 (lit (r"Generated report")) 100)
      (lit (r"2025-10-12 09:00:05")) (fun _ => []) 105 = none := by
  decide

/-- Claim C8 (amended): report generation is deterministic as a function
of the stored bytes: any two generations that succeed from the same cars
and operations file contents produce the same report lines once the two
timestamp lines (Generated at / Last Updated) are excluded, regardless of
the clock readings. -/
theorem claim_C8_determinism (carsF opsF s1 s2 : List Nat) (f1 f2 : Nat → List Nat)
    (now1 now2 : Nat) (r1 r2 : List (List Nat)) (o1 o2 : List Nat)
    (h1 : generateReport carsF opsF s1 f1 now1 = some (r1, o1))
    (h2 : generateReport carsF opsF s2 f2 now2 = some (r2, o2)) :
    scrubReport r1 = scrubReport r2 := by
  rw [generateReport_shape _ _ _ _ _ _ _ h1, generateReport_shape _ _ _ _ _ _ _ h2]
  exact scrub_reportLines_const s1 s2 f1 f2

/-- Concrete instance of C8 determinism: two successful generations at
different times agree after scrubbing the timestamp lines. -/
theorem claim_C8_determinism_witness :
    scrubReport (reportLines [] [] (lit (r"2025-10-12 09:00:00")) (fun _ => [])) =
      scrubReport (reportLines [] [] (lit (r"2025-10-12 10:30:00")) (fun _ => [])) :=
  claim_C8_determinism [] [] (lit (r"2025-10-12 09:00:00")) (lit (r"2025-10-12 10:30:00"))
    (fun _ => []) (fun _ => []) 100 200 _ _ _ _ rfl rfl

set_option maxRecDepth 40000 in
/-- Claim C9 (counterexample): `is_rented` is set directly from the y/n
answer of `add_car` — two adds identical except for that answer produce
records with `is_rented = 1` and `is_rented = 0` — and this program has
no rental records at all, so no rental invariant governs the flag. -/
theorem claim_C9_counterexample :
    (addCar [] (le32 1000) demoInputY 50 2025).2.2.map (fun c => c.is_rented) = some 1 ∧
    (addCar [] (le32 1000) demoInput 50 2025).2.2.map (fun c => c.is_rented) = some 0 ∧
    demoInputY = { demoInput with is_rented := lit (r"y") } := by
  decide

/-- Claim C9 (amended): on every successful add, the stored `is_rented`
flag is exactly the user's y/n answer (y gives 1, anything else 0). -/
theorem claim_C9_flag (content seqF : List Nat) (inp : AddInput) (now nowYear : Nat)
    (c : CarRecord) (h : (addCar content seqF inp now nowYear).2.2 = some c) :
    c.is_rented = (if inp.is_rented = lit (r"y") then 1 else 0) :=
  (addCar_some content seqF inp now nowYear c h).2.2.2.2.2.1

set_option maxRecDepth 40000 in
/-- Concrete instance of the C9 flag behaviour. -/
theorem claim_C9_flag_witness :
    demoAddedCar.is_rented = (if demoInputY.is_rented = lit (r"y") then 1 else 0) :=
  claim_C9_flag [] (le32 1000) demoInputY 50 2025 demoAddedCar (by decide)

/-- Claim C10 (counterexample): a block in the image of `pack` on which
`unpack(b).pack()` does not reproduce `b`: the record whose license plate
encoding is hard-cut mid-character — decode drops the dangling byte and
re-encode pads with NUL instead, so the rewrite of `_update_car_record`
would not leave such a record byte-identical. -/
theorem claim_C10_counterexample :
    (CarRecord.pack splitCar).bind (fun b => (CarRecord.unpack b 9).bind CarRecord.pack) ≠
      CarRecord.pack splitCar ∧
    (CarRecord.pack splitCar).isSome = true := by
  decide

/-- Claim C10 (amended): for every block `b = pack e` of a record with
nonzero timestamps whose text fields are not cut mid-character by their
byte budgets (the stored slices are valid UTF-8), re-encoding the decoded
record reproduces `b` exactly: `unpack(b).pack() = b`. -/
theorem claim_C10_repack (e : CarRecord) (b : List Nat) (now : Nat)
    (hb : CarRecord.pack e = some b) (hc : e.created_at ≠ 0) (hu : e.updated_at ≠ 0)
    (ha1 : validUtf8 ((encodeUtf8 e.license_plate).take 12) = true)
    (ha2 : validUtf8 ((encodeUtf8 e.brand).take 12) = true)
    (ha3 : validUtf8 ((encodeUtf8 e.model).take 16) = true) :
    (CarRecord.unpack b now).bind CarRecord.pack = some b :=
  pack_unpack e b now hb hc hu ha1 ha2 ha3

/-- Concrete instance of the C10 byte-level re-encode identity. -/
theorem claim_C10_repack_witness :
    (CarRecord.unpack demoFile 33).bind CarRecord.pack = some demoFile :=
  claim_C10_repack demoCar demoFile 33 (by decide) (by decide) (by decide) (by decide)
    (by decide) (by decide)

end CarRental
